import Mathlib

/-
Verification development for the winmsg crate (src/lib.rs): a decoder for the
Windows message protocol.  A raw event is a triple
(msg : u32, w_param : usize, l_param : isize).  `WindowEvent::parse` bands the
identifier into System / User / App / String / Reserved ranges; in the System
band the source reinterprets the raw triple as the `#[repr(u32)]` enum
`WindowMessage` through the untagged union `UWM`.

Shallow embedding conventions, fixed by the source's types and the Windows
64-bit ABI the crate's size assertion pins (WPARAM/LPARAM are 64-bit words;
the crate's `_WM_SIZE_ASSERT` demands a 24-byte `WindowMessage`):
  * unsigned machine integers are carried as `Nat` holding the bit pattern
    (u32, u16, u64 values); signed values that the source exposes as `i16`
    are reconstructed as `Int` by explicit sign extension;
  * raw pointers / handles (HWND, HDC, HICON) are carried as `Nat` addresses;
    `Option<NonNull<T>>` becomes `Option Nat` (0 decodes to `none`);
  * the union read `UWM { raw }.typed` is given its byte-level meaning under
    the guaranteed `#[repr(u32)]` enum layout (RFC 2195: each variant is laid
    out as a `repr(C)` struct beginning with the u32 tag).  `RawEvent`'s bytes
    are: msg at 0..4, padding at 4..8, w_param at 8..16, l_param at 16..24.
    The read therefore has a defined value only when the discriminant equals a
    declared variant's tag, every enum-typed payload field receives a declared
    discriminant value, and no payload field is drawn from the uninitialized
    padding bytes 4..8.  `decodeSystem` returns `none` exactly in the
    undefined cases and the decoded variant value otherwise.
-/

namespace Winmsg

/-- Low 16 bits of a word. -/
def lo16 (n : Nat) : Nat := n % 65536

/-- Bits 16..31 of a word. -/
def mid16 (n : Nat) : Nat := n / 65536 % 65536

/-- Bits 32..63 of a word. -/
def hi32 (n : Nat) : Nat := n / 4294967296

/-- Reinterpret the low 16 bits of a word as a signed 16-bit integer
(two's complement), as Rust does when a payload field is typed `i16`. -/
def sext16 (n : Nat) : Int :=
  if n % 65536 < 32768 then (n % 65536 : Nat) else (n % 65536 : Nat) - 65536

/-- Decode a word as `Option<NonNull<T>>`: the null address is `None`,
every other bit pattern is a valid `Some` pointer. -/
def asPtr (n : Nat) : Option Nat := if n = 0 then none else some n

/-- `RawEvent { msg: UINT, w_param: WPARAM, l_param: LPARAM }`.
`l_param` is signed in the source; the field carries its 64 raw bits. -/
structure RawEvent where
  msg : Nat
  w_param : Nat
  l_param : Nat
deriving DecidableEq

/-- `MousePos { x: i16, y: i16 }` (`#[repr(C, align(8))]`). -/
structure MousePos where
  x : Int
  y : Int
deriving DecidableEq

/-- A `MousePos` read from a parameter word: `x` is the sign-extended low
16 bits, `y` the sign-extended bits 16..31. -/
def decodePos (l : Nat) : MousePos := ⟨sext16 l, sext16 (l / 65536)⟩

/-- `MouseActivation` (`#[repr(u32)]`); declared in the source but not used
as a payload field of any `WindowMessage` variant. -/
inductive MouseActivation where
  | Activate
  | ActivateAndEat
  | NoActivate
  | NoActivateAndEat
deriving DecidableEq

/-- `WindowActivation` (`#[repr(u16)]`). -/
inductive WindowActivation where
  | Active
  | ClickActive
  | Inactive
deriving DecidableEq

/-- `KeyInfo(u64)`: bitfield over a 64-bit word (only the low 32 bits are
covered by declared sub-fields). -/
structure KeyInfo where
  bits : Nat
deriving DecidableEq

/-- `repeat_count`: bits 15..0. -/
def KeyInfo.repeat_count (k : KeyInfo) : Nat := k.bits % 65536

/-- `scan_code`: bits 23..16. -/
def KeyInfo.scan_code (k : KeyInfo) : Nat := k.bits / 65536 % 256

/-- `extended`: bit 24. -/
def KeyInfo.extended (k : KeyInfo) : Bool := decide (k.bits / 16777216 % 2 = 1)

/-- `context_code`: bit 29 (bits 28..25 are the read-ignored `_reserved`
field, which has no accessor). -/
def KeyInfo.context_code (k : KeyInfo) : Bool := decide (k.bits / 536870912 % 2 = 1)

/-- `previous_state`: bit 30. -/
def KeyInfo.previous_state (k : KeyInfo) : Bool := decide (k.bits / 1073741824 % 2 = 1)

/-- `transition_state`: bit 31. -/
def KeyInfo.transition_state (k : KeyInfo) : Bool := decide (k.bits / 2147483648 % 2 = 1)

/-- `KeyMessage { up: bool, sys: bool, code: WPARAM, info: KeyInfo }`. -/
structure KeyMessage where
  up : Bool
  sys : Bool
  code : Nat
  info : KeyInfo
deriving DecidableEq

/-- `MouseButton { Left, Right, Middle, X(WORD) }`. -/
inductive MouseButton where
  | Left
  | Right
  | Middle
  | X : Nat → MouseButton
deriving DecidableEq

/-- `MouseButtonAction { Down, Up, DoubleClick }`. -/
inductive MouseButtonAction where
  | Down
  | Up
  | DoubleClick
deriving DecidableEq

/-- `MouseButtonMessage { action, button, pos, modifiers: WPARAM }`. -/
structure MouseButtonMessage where
  action : MouseButtonAction
  button : MouseButton
  pos : MousePos
  modifiers : Nat
deriving DecidableEq

/-- `IconSize` (`#[repr(u64)]`): Small = ICON_SMALL = 0, Big = ICON_BIG = 1,
Small2 = ICON_SMALL2 = 2. -/
inductive IconSize where
  | Small
  | Big
  | Small2
deriving DecidableEq

/-- `WindowShown` (`#[repr(isize)]`); declared in the source but not used as
a payload field of any `WindowMessage` variant (`ShowWindow` carries plain
words). -/
inductive WindowShown where
  | OtherUnZoom
  | OtherZoom
  | ParentClosing
  | ParentOpening
deriving DecidableEq

/-- `WindowResizing` (`#[repr(usize)]`): MaxHide = SIZE_MAXHIDE = 4,
Maximized = SIZE_MAXIMIZED = 2, MaxShow = SIZE_MAXSHOW = 3,
Minimized = SIZE_MINIMIZED = 1, Restored = SIZE_RESTORED = 0. -/
inductive WindowResizing where
  | MaxHide
  | Maximized
  | MaxShow
  | Minimized
  | Restored
deriving DecidableEq

/-- `PowerEvent` (`#[repr(usize)]`): PBT_APMPOWERSTATUSCHANGE = 0xA,
PBT_APMRESUMEAUTOMATIC = 0x12, PBT_APMRESUMESUSPEND = 0x7,
PBT_APMSUSPEND = 0x4, PBT_POWERSETTINGCHANGE = 0x8013. -/
inductive PowerEvent where
  | ApmPowerStatusChange
  | ApmResumeAutomatic
  | ApmResumeSuspend
  | ApmSuspend
  | PowerSettingsChange
deriving DecidableEq

/-- `GwlStyle` (`#[repr(i32)]`): ExStyle = GWL_EXSTYLE = -20,
Style = GWL_STYLE = -16. -/
inductive GwlStyle where
  | ExStyle
  | Style
deriving DecidableEq

/-- `NcSizeParams` (`#[repr(usize)]`): discriminant TRUE = 1 selects
`ValidClientArea { data: Option<NonNull<NCCALCSIZE_PARAMS>> }`,
FALSE = 0 selects `Rect { data: Option<NonNull<RECT>> }`. -/
inductive NcSizeParams where
  | ValidClientArea : Option Nat → NcSizeParams
  | Rect : Option Nat → NcSizeParams
deriving DecidableEq

/-- Bit-pattern validity of a `WindowResizing` payload word: the value read
by the union pun is defined only for a declared discriminant. -/
def WindowResizing.fromBits : Nat → Option WindowResizing
  | 0 => some .Restored
  | 1 => some .Minimized
  | 2 => some .Maximized
  | 3 => some .MaxShow
  | 4 => some .MaxHide
  | _ => none

/-- Bit-pattern validity of an `IconSize` payload word. -/
def IconSize.fromBits : Nat → Option IconSize
  | 0 => some .Small
  | 1 => some .Big
  | 2 => some .Small2
  | _ => none

/-- Bit-pattern validity of a `PowerEvent` payload word. -/
def PowerEvent.fromBits : Nat → Option PowerEvent
  | 0x4 => some .ApmSuspend
  | 0x7 => some .ApmResumeSuspend
  | 0xA => some .ApmPowerStatusChange
  | 0x12 => some .ApmResumeAutomatic
  | 0x8013 => some .PowerSettingsChange
  | _ => none

/-- Bit-pattern validity of an `NcSizeParams` payload (discriminant word from
`w_param`, pointer word from `l_param`). -/
def NcSizeParams.fromBits (wp lp : Nat) : Option NcSizeParams :=
  if wp = 1 then some (.ValidClientArea (asPtr lp))
  else if wp = 0 then some (.Rect (asPtr lp))
  else none

/-- The `#[repr(u32)]` enum `WindowMessage`: one constructor per declared
variant, in source order, each carrying its declared payload fields in
source order (word-typed and handle-typed fields as `Nat`,
`Option<NonNull<T>>` as `Option Nat`, `i16` fields as `Int`). -/
inductive WindowMessage where
  | Null
  | Create (_unused : Nat) (data : Option Nat)
  | Destroy
  | Move (_unused : Nat) (x y : Int) (_unused2 : Nat)
  | Size (resizing : WindowResizing) (width height : Int) (_unused : Nat)
  | Activate (activated : Nat) (state : WindowActivation) (window : Nat)
  | SetFocus (window : Option Nat)
  | KillFocus
  | Enable
  | SetRedraw
  | SetText
  | GetText
  | GetTextLength
  | Paint
  | Close
  | QueryEndSession
  | QueryOpen
  | EndSession
  | Quit
  | EraseBackground (dc _unused : Nat)
  | SysColorChange
  | ShowWindow (shown status : Nat)
  | SettingChange
  | DevModeChange
  | ActivateApp (activated thread : Nat)
  | FontChange
  | TimeChange
  | CancelMode
  | SetCursor (window hit_test trigger_message _unused : Nat)
  | MouseActivate (top_window activation : Nat)
  | ChildActivate
  | QueueSync
  | GetMinMaxInfo (_unused : Nat) (data : Option Nat)
  | PaintIcon
  | IconEraseBackground
  | NextDialogCtl
  | SpoolerStatus
  | DrawItem
  | MeasureItem
  | DeleteItem
  | VKeyToItem
  | CharToItem
  | SetFont
  | GetFont
  | SetHotkey
  | GetHotkey
  | QueryDragIcon
  | CompareItem
  | GetObject
  | Compacting
  | CommNotify
  | WindowPosChanging (_unused : Nat) (data : Option Nat)
  | WindowPosChanged (_unused : Nat) (data : Option Nat)
  | Power
  | CopyData
  | CancelJournal
  | Notify
  | InputLangChangeRequest
  | InputLangChange
  | TCard
  | Help
  | UserChanged
  | NotifyFormat
  | ContextMenu
  | StyleChanging (style : GwlStyle) (_unused : Nat) (data : Option Nat)
  | StyleChanged (style : GwlStyle) (_unused : Nat) (data : Option Nat)
  | DisplayChange
  | GetIcon (size : IconSize) (dpi : Nat)
  | SetIcon (size : IconSize) (icon : Nat)
  | NcCreate
  | NcDestroy
  | NcCalcSize (params : NcSizeParams)
  | NcHitTest (_unused : Nat) (pos : MousePos)
  | NcPaint (update_region _unused : Nat)
  | NcActivate (update_icon update_region : Nat)
  | GetDlgCode
  | SyncPaint
  | NcMouseMove (hit_test : Nat) (pos : MousePos)
  | NclButtonDown
  | NclButtonUp
  | NclButtonDblClk
  | NcRButtonDown
  | NcRButtonUp
  | NcRButtonDblClk
  | NcMButtonDown
  | NcMButtonUp
  | NcMButtonDblClk
  | NcXButtonDown
  | NcXButtonUp
  | NcXButtonDblClk
  | InputDeviceChange
  | Input
  | KeyDown (key_code : Nat) (info : KeyInfo)
  | KeyUp (key_code : Nat) (info : KeyInfo)
  | Char
  | DeadChar
  | SysKeyDown (key_code : Nat) (info : KeyInfo)
  | SysKeyUp (key_code : Nat) (info : KeyInfo)
  | SysChar
  | SysDeadChar
  | UniChar
  | ImeStartComposition
  | ImeEndComposition
  | ImeComposition
  | InitDialog
  | Command
  | SysCommand
  | TIMER
  | HScroll
  | VScroll
  | InitMenu
  | InitMenuPopup
  | Gesture
  | GestureNotify
  | MenuSelect
  | MenuChar
  | EnterIdle
  | MenuRButtonUp
  | MenuDrag
  | MenuGetObject
  | UninitMenuPopup
  | MenuCommand
  | ChangeUiState
  | UpdateUiState
  | QueryUiState
  | CtlColorMsgBox
  | CtlColorEdit
  | CtlColorListBox
  | CtlColorBtn
  | CtlColorDlg
  | CtlColorScrollbar
  | CtlColorStatic
  | MouseMove (modifiers : Nat) (pos : MousePos)
  | LButtonDown (modifiers : Nat) (pos : MousePos)
  | LButtonUp (modifiers : Nat) (pos : MousePos)
  | LButtonDblClk (modifiers : Nat) (pos : MousePos)
  | RButtonDown (modifiers : Nat) (pos : MousePos)
  | RButtonUp (modifiers : Nat) (pos : MousePos)
  | RButtonDblClk (modifiers : Nat) (pos : MousePos)
  | MButtonDown (modifiers : Nat) (pos : MousePos)
  | MButtonUp (modifiers : Nat) (pos : MousePos)
  | MButtonDblClk (modifiers : Nat) (pos : MousePos)
  | MouseWheel (modifiers delta : Nat) (pos : MousePos)
  | XButtonDown (modifiers button : Nat) (pos : MousePos)
  | XButtonUp (modifiers button : Nat) (pos : MousePos)
  | XButtonDblClk (modifiers button : Nat) (pos : MousePos)
  | NcUahDrawCaption (w l : Nat)
  | NcUahDrawFrame (w l : Nat)
  | MouseHWheel (modifiers delta : Nat) (pos : MousePos)
  | ParentNotify
  | EnterMenuLoop
  | ExitMenuLoop
  | NextMenu
  | Sizing
  | CaptureChanged (_unused window : Nat)
  | Moving
  | PowerBroadcast (event : PowerEvent) (data : Option Nat)
  | DeviceChange
  | MdiCreate
  | MdiDestroy
  | MdiActivate
  | MdiRestore
  | MdiNext
  | MdiMaximize
  | MdiTile
  | MdiCascade
  | MdiIconArrange
  | MdiGetActive
  | MdiSetMenu
  | EnterSizeMove
  | ExitSizeMove
  | DropFiles
  | MdiRefreshMenu
  | PointerDeviceChange
  | PointerDeviceInRange
  | PointerDeviceOutOfRange
  | Touch
  | NcPointerUpdate
  | NcPointerDown
  | NcPointerUp
  | PointerUpdate
  | POINTERDOWN
  | POINTERUP
  | POINTERENTER
  | POINTERLEAVE
  | PointerActivate
  | PointerCaptureChanged
  | TouchHitTesting
  | PointerWheel
  | PointerHWheel
  | PointerRoutedTo
  | PointerRoutedAway
  | PointerRoutedReleased
  | ImeSetContext (active display_options : Nat)
  | ImeNotify (window command : Nat)
  | ImeControl
  | ImeCompositionFull
  | ImeSelect
  | ImeChar
  | ImeRequest
  | ImeKeydown
  | ImeKeyup
  | MouseHover (modifiers : Nat) (pos : MousePos)
  | MouseLeave
  | NcMouseHover
  | NcMouseLeave
  | WtsSessionChange
  | TabletFirst
  | TabletLast
  | DpiChanged
  | DpiChangedBeforeParent
  | DpiChangedAfterParent
  | GetDpiScaledSize
  | Cut
  | Copy
  | Paste
  | Clear
  | Undo
  | RenderFormat
  | RenderAllFormats
  | DestroyClipboard
  | DrawClipboard
  | PaintClipboard
  | VScrollClipboard
  | SizeClipboard
  | AskCbFormatName
  | ChangeCbChain
  | HScrollClipboard
  | QueryNewPalette
  | PaletteIsChanging
  | PaletteChanged
  | Hotkey
  | Print
  | PrintClient
  | AppCommand
  | ThemeChanged
  | ClipboardUpdate
  | DwmCompositionChanged
  | DwmNcRenderingChanged
  | DwmColorizationColorChanged
  | DwmWindowMaximizedChange
  | DwmSendIconIcThumbnail
  | DwmSendIconIcLivePreviewBitmap
  | GetTitleBarInfoEx
  | HandHeldFirst
  | HandHeldLast
  | AfxFirst
  | AfxLast
  | PenWinFirst
  | PenWinLast

set_option maxHeartbeats 3200000 in
/-- Byte-level meaning of the union read `UWM { raw: RawEvent { msg, wp, lp } }.typed`
performed by `WindowEvent::parse` in the System band.  Under the guaranteed
`#[repr(u32)]` layout each variant is a `repr(C)` struct `{ tag: u32, fields... }`,
so a payload field at byte offset 8..16 receives `w_param`, a field at offset
16..24 receives `l_param`, and a field at offset 4..8 receives `RawEvent`'s
uninitialized padding bytes.  The result is `none` when the read has no
defined value: the discriminant matches no declared variant, an enum-typed
field receives an undeclared discriminant bit pattern, or a field is drawn
from the padding bytes (Activate, StyleChanging, StyleChanged, MouseWheel,
MouseHWheel, XButtonDown, XButtonUp, XButtonDblClk). -/
def decodeSystem (msg wp lp : Nat) : Option WindowMessage :=
  match msg with
  | 0x0000 => some .Null
  | 0x0001 => some (.Create wp (asPtr lp))
  | 0x0002 => some .Destroy
  | 0x0003 => some (.Move wp (sext16 lp) (sext16 (lp / 65536)) (hi32 lp))
  | 0x0005 => (WindowResizing.fromBits wp).map
      (fun r => .Size r (sext16 lp) (sext16 (lp / 65536)) (hi32 lp))
  | 0x0006 => none -- Activate: activated / state occupy padding bytes 4..8
  | 0x0007 => some (.SetFocus (asPtr wp))
  | 0x0008 => some .KillFocus
  | 0x000A => some .Enable
  | 0x000B => some .SetRedraw
  | 0x000C => some .SetText
  | 0x000D => some .GetText
  | 0x000E => some .GetTextLength
  | 0x000F => some .Paint
  | 0x0010 => some .Close
  | 0x0011 => some .QueryEndSession
  | 0x0012 => some .Quit
  | 0x0013 => some .QueryOpen
  | 0x0014 => some (.EraseBackground wp lp)
  | 0x0015 => some .SysColorChange
  | 0x0016 => some .EndSession
  | 0x0018 => some (.ShowWindow wp lp)
  | 0x001A => some .SettingChange
  | 0x001B => some .DevModeChange
  | 0x001C => some (.ActivateApp wp lp)
  | 0x001D => some .FontChange
  | 0x001E => some .TimeChange
  | 0x001F => some .CancelMode
  | 0x0020 => some (.SetCursor wp (lo16 lp) (mid16 lp) (hi32 lp))
  | 0x0021 => some (.MouseActivate wp lp)
  | 0x0022 => some .ChildActivate
  | 0x0023 => some .QueueSync
  | 0x0024 => some (.GetMinMaxInfo wp (asPtr lp))
  | 0x0026 => some .PaintIcon
  | 0x0027 => some .IconEraseBackground
  | 0x0028 => some .NextDialogCtl
  | 0x002A => some .SpoolerStatus
  | 0x002B => some .DrawItem
  | 0x002C => some .MeasureItem
  | 0x002D => some .DeleteItem
  | 0x002E => some .VKeyToItem
  | 0x002F => some .CharToItem
  | 0x0030 => some .SetFont
  | 0x0031 => some .GetFont
  | 0x0032 => some .SetHotkey
  | 0x0033 => some .GetHotkey
  | 0x0037 => some .QueryDragIcon
  | 0x0039 => some .CompareItem
  | 0x003D => some .GetObject
  | 0x0041 => some .Compacting
  | 0x0044 => some .CommNotify
  | 0x0046 => some (.WindowPosChanging wp (asPtr lp))
  | 0x0047 => some (.WindowPosChanged wp (asPtr lp))
  | 0x0048 => some .Power
  | 0x004A => some .CopyData
  | 0x004B => some .CancelJournal
  | 0x004E => some .Notify
  | 0x0050 => some .InputLangChangeRequest
  | 0x0051 => some .InputLangChange
  | 0x0052 => some .TCard
  | 0x0053 => some .Help
  | 0x0054 => some .UserChanged
  | 0x0055 => some .NotifyFormat
  | 0x007B => some .ContextMenu
  | 0x007C => none -- StyleChanging: style occupies padding bytes 4..8
  | 0x007D => none -- StyleChanged: style occupies padding bytes 4..8
  | 0x007E => some .DisplayChange
  | 0x007F => (IconSize.fromBits wp).map (fun s => .GetIcon s lp)
  | 0x0080 => (IconSize.fromBits wp).map (fun s => .SetIcon s lp)
  | 0x0081 => some .NcCreate
  | 0x0082 => some .NcDestroy
  | 0x0083 => (NcSizeParams.fromBits wp lp).map .NcCalcSize
  | 0x0084 => some (.NcHitTest wp (decodePos lp))
  | 0x0085 => some (.NcPaint wp lp)
  | 0x0086 => some (.NcActivate wp lp)
  | 0x0087 => some .GetDlgCode
  | 0x0088 => some .SyncPaint
  | 0x00A0 => some (.NcMouseMove wp (decodePos lp))
  | 0x00A1 => some .NclButtonDown
  | 0x00A2 => some .NclButtonUp
  | 0x00A3 => some .NclButtonDblClk
  | 0x00A4 => some .NcRButtonDown
  | 0x00A5 => some .NcRButtonUp
  | 0x00A6 => some .NcRButtonDblClk
  | 0x00A7 => some .NcMButtonDown
  | 0x00A8 => some .NcMButtonUp
  | 0x00A9 => some .NcMButtonDblClk
  | 0x00AB => some .NcXButtonDown
  | 0x00AC => some .NcXButtonUp
  | 0x00AD => some .NcXButtonDblClk
  | 0x00AE => some (.NcUahDrawCaption wp lp)
  | 0x00AF => some (.NcUahDrawFrame wp lp)
  | 0x00FE => some .InputDeviceChange
  | 0x00FF => some .Input
  | 0x0100 => some (.KeyDown wp ⟨lp⟩)
  | 0x0101 => some (.KeyUp wp ⟨lp⟩)
  | 0x0102 => some .Char
  | 0x0103 => some .DeadChar
  | 0x0104 => some (.SysKeyDown wp ⟨lp⟩)
  | 0x0105 => some (.SysKeyUp wp ⟨lp⟩)
  | 0x0106 => some .SysChar
  | 0x0107 => some .SysDeadChar
  | 0x0109 => some .UniChar
  | 0x010D => some .ImeStartComposition
  | 0x010E => some .ImeEndComposition
  | 0x010F => some .ImeComposition
  | 0x0110 => some .InitDialog
  | 0x0111 => some .Command
  | 0x0112 => some .SysCommand
  | 0x0113 => some .TIMER
  | 0x0114 => some .HScroll
  | 0x0115 => some .VScroll
  | 0x0116 => some .InitMenu
  | 0x0117 => some .InitMenuPopup
  | 0x0119 => some .Gesture
  | 0x011A => some .GestureNotify
  | 0x011F => some .MenuSelect
  | 0x0120 => some .MenuChar
  | 0x0121 => some .EnterIdle
  | 0x0122 => some .MenuRButtonUp
  | 0x0123 => some .MenuDrag
  | 0x0124 => some .MenuGetObject
  | 0x0125 => some .UninitMenuPopup
  | 0x0126 => some .MenuCommand
  | 0x0127 => some .ChangeUiState
  | 0x0128 => some .UpdateUiState
  | 0x0129 => some .QueryUiState
  | 0x0132 => some .CtlColorMsgBox
  | 0x0133 => some .CtlColorEdit
  | 0x0134 => some .CtlColorListBox
  | 0x0135 => some .CtlColorBtn
  | 0x0136 => some .CtlColorDlg
  | 0x0137 => some .CtlColorScrollbar
  | 0x0138 => some .CtlColorStatic
  | 0x0200 => some (.MouseMove wp (decodePos lp))
  | 0x0201 => some (.LButtonDown wp (decodePos lp))
  | 0x0202 => some (.LButtonUp wp (decodePos lp))
  | 0x0203 => some (.LButtonDblClk wp (decodePos lp))
  | 0x0204 => some (.RButtonDown wp (decodePos lp))
  | 0x0205 => some (.RButtonUp wp (decodePos lp))
  | 0x0206 => some (.RButtonDblClk wp (decodePos lp))
  | 0x0207 => some (.MButtonDown wp (decodePos lp))
  | 0x0208 => some (.MButtonUp wp (decodePos lp))
  | 0x0209 => some (.MButtonDblClk wp (decodePos lp))
  | 0x020A => none -- MouseWheel: modifiers / delta occupy padding bytes 4..8
  | 0x020B => none -- XButtonDown: modifiers / button occupy padding bytes 4..8
  | 0x020C => none -- XButtonUp: modifiers / button occupy padding bytes 4..8
  | 0x020D => none -- XButtonDblClk: modifiers / button occupy padding bytes 4..8
  | 0x020E => none -- MouseHWheel: modifiers / delta occupy padding bytes 4..8
  | 0x0210 => some .ParentNotify
  | 0x0211 => some .EnterMenuLoop
  | 0x0212 => some .ExitMenuLoop
  | 0x0213 => some .NextMenu
  | 0x0214 => some .Sizing
  | 0x0215 => some (.CaptureChanged wp lp)
  | 0x0216 => some .Moving
  | 0x0218 => (PowerEvent.fromBits wp).map (fun e => .PowerBroadcast e (asPtr lp))
  | 0x0219 => some .DeviceChange
  | 0x0220 => some .MdiCreate
  | 0x0221 => some .MdiDestroy
  | 0x0222 => some .MdiActivate
  | 0x0223 => some .MdiRestore
  | 0x0224 => some .MdiNext
  | 0x0225 => some .MdiMaximize
  | 0x0226 => some .MdiTile
  | 0x0227 => some .MdiCascade
  | 0x0228 => some .MdiIconArrange
  | 0x0229 => some .MdiGetActive
  | 0x0230 => some .MdiSetMenu
  | 0x0231 => some .EnterSizeMove
  | 0x0232 => some .ExitSizeMove
  | 0x0233 => some .DropFiles
  | 0x0234 => some .MdiRefreshMenu
  | 0x0238 => some .PointerDeviceChange
  | 0x0239 => some .PointerDeviceInRange
  | 0x023A => some .PointerDeviceOutOfRange
  | 0x0240 => some .Touch
  | 0x0241 => some .NcPointerUpdate
  | 0x0242 => some .NcPointerDown
  | 0x0243 => some .NcPointerUp
  | 0x0245 => some .PointerUpdate
  | 0x0246 => some .POINTERDOWN
  | 0x0247 => some .POINTERUP
  | 0x0249 => some .POINTERENTER
  | 0x024A => some .POINTERLEAVE
  | 0x024B => some .PointerActivate
  | 0x024C => some .PointerCaptureChanged
  | 0x024D => some .TouchHitTesting
  | 0x024E => some .PointerWheel
  | 0x024F => some .PointerHWheel
  | 0x0251 => some .PointerRoutedTo
  | 0x0252 => some .PointerRoutedAway
  | 0x0253 => some .PointerRoutedReleased
  | 0x0281 => some (.ImeSetContext wp lp)
  | 0x0282 => some (.ImeNotify wp lp)
  | 0x0283 => some .ImeControl
  | 0x0284 => some .ImeCompositionFull
  | 0x0285 => some .ImeSelect
  | 0x0286 => some .ImeChar
  | 0x0288 => some .ImeRequest
  | 0x0290 => some .ImeKeydown
  | 0x0291 => some .ImeKeyup
  | 0x02A0 => some .NcMouseHover
  | 0x02A1 => some (.MouseHover wp (decodePos lp))
  | 0x02A2 => some .NcMouseLeave
  | 0x02A3 => some .MouseLeave
  | 0x02B1 => some .WtsSessionChange
  | 0x02C0 => some .TabletFirst
  | 0x02DF => some .TabletLast
  | 0x02E0 => some .DpiChanged
  | 0x02E2 => some .DpiChangedBeforeParent
  | 0x02E3 => some .DpiChangedAfterParent
  | 0x02E4 => some .GetDpiScaledSize
  | 0x0300 => some .Cut
  | 0x0301 => some .Copy
  | 0x0302 => some .Paste
  | 0x0303 => some .Clear
  | 0x0304 => some .Undo
  | 0x0305 => some .RenderFormat
  | 0x0306 => some .RenderAllFormats
  | 0x0307 => some .DestroyClipboard
  | 0x0308 => some .DrawClipboard
  | 0x0309 => some .PaintClipboard
  | 0x030A => some .VScrollClipboard
  | 0x030B => some .SizeClipboard
  | 0x030C => some .AskCbFormatName
  | 0x030D => some .ChangeCbChain
  | 0x030E => some .HScrollClipboard
  | 0x030F => some .QueryNewPalette
  | 0x0310 => some .PaletteIsChanging
  | 0x0311 => some .PaletteChanged
  | 0x0312 => some .Hotkey
  | 0x0317 => some .Print
  | 0x0318 => some .PrintClient
  | 0x0319 => some .AppCommand
  | 0x031A => some .ThemeChanged
  | 0x031D => some .ClipboardUpdate
  | 0x031E => some .DwmCompositionChanged
  | 0x031F => some .DwmNcRenderingChanged
  | 0x0320 => some .DwmColorizationColorChanged
  | 0x0321 => some .DwmWindowMaximizedChange
  | 0x0323 => some .DwmSendIconIcThumbnail
  | 0x0326 => some .DwmSendIconIcLivePreviewBitmap
  | 0x033F => some .GetTitleBarInfoEx
  | 0x0358 => some .HandHeldFirst
  | 0x035F => some .HandHeldLast
  | 0x0360 => some .AfxFirst
  | 0x037F => some .AfxLast
  | 0x0380 => some .PenWinFirst
  | 0x038F => some .PenWinLast
  | _ => none

/-- `WindowEvent`.  `Message` carries `Option WindowMessage` because the
source obtains its `WindowMessage` from the untagged-union read, which has a
defined value only for the cases described at `decodeSystem` (`none` marks
the undefined reads; the source has no `Unknown` variant and performs no
dispatch before the read). -/
inductive WindowEvent where
  | Message : Option WindowMessage → WindowEvent
  | User : RawEvent → WindowEvent
  | App : RawEvent → WindowEvent
  | String : RawEvent → WindowEvent
  | Reserved : RawEvent → WindowEvent

/-- `WindowEvent::parse`: band match with `WM_USER = 0x0400`,
`WM_APP = 0x8000`, `WM_STRING = 0xC000`, `WM_RESERVED = 0xFFFF`.  The match
arms are `0..=0x3FF`, `0x400..=0x7FFF`, `0x8000..=0xBFFF`, `0xC000..=0xFFFE`,
`0xFFFF..`; note the String arm subtracts `WM_APP`, exactly as the source
does. -/
def WindowEvent.parse (msg w_param l_param : Nat) : WindowEvent :=
  if msg ≤ 0x3FF then .Message (decodeSystem msg w_param l_param)
  else if msg ≤ 0x7FFF then .User ⟨msg - 0x400, w_param, l_param⟩
  else if msg ≤ 0xBFFF then .App ⟨msg - 0x8000, w_param, l_param⟩
  else if msg ≤ 0xFFFE then .String ⟨msg - 0x8000, w_param, l_param⟩
  else .Reserved ⟨msg - 0xFFFF, w_param, l_param⟩

/-- `WindowMessage::as_key`. -/
def WindowMessage.as_key : WindowMessage → Option KeyMessage
  | .SysKeyUp key_code info => some ⟨true, true, key_code, info⟩
  | .KeyUp key_code info => some ⟨true, false, key_code, info⟩
  | .SysKeyDown key_code info => some ⟨false, true, key_code, info⟩
  | .KeyDown key_code info => some ⟨false, false, key_code, info⟩
  | _ => none

/-- `WindowMessage::as_mouse_button`.  For the X-button arms the source
widens `modifiers: WORD` with `modifiers as _` (u16 → usize zero-extension),
which is the identity on the `Nat` carrier. -/
def WindowMessage.as_mouse_button : WindowMessage → Option MouseButtonMessage
  | .LButtonDown modifiers pos => some ⟨.Down, .Left, pos, modifiers⟩
  | .LButtonUp modifiers pos => some ⟨.Up, .Left, pos, modifiers⟩
  | .LButtonDblClk modifiers pos => some ⟨.DoubleClick, .Left, pos, modifiers⟩
  | .RButtonDown modifiers pos => some ⟨.Down, .Right, pos, modifiers⟩
  | .RButtonUp modifiers pos => some ⟨.Up, .Right, pos, modifiers⟩
  | .RButtonDblClk modifiers pos => some ⟨.DoubleClick, .Right, pos, modifiers⟩
  | .MButtonDown modifiers pos => some ⟨.Down, .Middle, pos, modifiers⟩
  | .MButtonUp modifiers pos => some ⟨.Up, .Middle, pos, modifiers⟩
  | .MButtonDblClk modifiers pos => some ⟨.DoubleClick, .Middle, pos, modifiers⟩
  | .XButtonDown modifiers button pos => some ⟨.Down, .X button, pos, modifiers⟩
  | .XButtonUp modifiers button pos => some ⟨.Up, .X button, pos, modifiers⟩
  | .XButtonDblClk modifiers button pos => some ⟨.DoubleClick, .X button, pos, modifiers⟩
  | _ => none

/-- The four key-family tags: exactly the patterns matched by `as_key`. -/
def WindowMessage.isKeyFamily : WindowMessage → Bool
  | .KeyDown _ _ | .KeyUp _ _ | .SysKeyDown _ _ | .SysKeyUp _ _ => true
  | _ => false

/-- The twelve mouse-button-family tags: exactly the patterns matched by
`as_mouse_button`. -/
def WindowMessage.isMouseButtonFamily : WindowMessage → Bool
  | .LButtonDown _ _ | .LButtonUp _ _ | .LButtonDblClk _ _
  | .RButtonDown _ _ | .RButtonUp _ _ | .RButtonDblClk _ _
  | .MButtonDown _ _ | .MButtonUp _ _ | .MButtonDblClk _ _
  | .XButtonDown _ _ _ | .XButtonUp _ _ _ | .XButtonDblClk _ _ _ => true
  | _ => false

/-
Memory-layout model for the size assertions (source lines 150-172), following
Rust's deterministic layout rules for `repr(C)` structs and `repr(int)` enums
(RFC 2195: an int-repr enum is laid out as the union of `repr(C)` variant
structs, each beginning with the tag; union size = max variant size rounded
to max variant alignment).  Primitive (size, align) on the Windows targets
this crate supports: u32 (4,4), u16 (2,2), u64 (8,8), pointer-sized words
(w/8, w/8) at pointer width w, `MousePos` (8,8) by its `align(8)` attribute.
-/

/-- Round an offset up to an alignment (Rust field placement). -/
def alignTo (off a : Nat) : Nat := (off + a - 1) / a * a

/-- Bytes in a machine word at pointer width `w` (32 or 64). -/
def wordBytes (w : Nat) : Nat := w / 8

/-- Size and alignment of a `repr(C)` struct from its fields' (size, align)
pairs: place each field at the next aligned offset, then round the end
offset up to the struct alignment (the max field alignment). -/
def layoutStruct (fields : List (Nat × Nat)) : Nat × Nat :=
  let r := fields.foldl (fun acc f => (alignTo acc.1 f.2 + f.1, max acc.2 f.2)) (0, 1)
  (alignTo r.1 r.2, r.2)

/-- `RawEvent { msg: u32, w_param: usize, l_param: isize }` fields. -/
def rawEventFields (w : Nat) : List (Nat × Nat) :=
  [(4, 4), (wordBytes w, wordBytes w), (wordBytes w, wordBytes w)]

/-- `size_of::<RawEvent>()` at pointer width `w`. -/
def rawEventSize (w : Nat) : Nat := (layoutStruct (rawEventFields w)).1

/-- The variant structs of `WindowMessage` as (size, align) field lists,
each beginning with the (4,4) u32 tag.  The first entry stands for every
payload-free variant; the rest cover each payload shape that occurs
(identical shapes listed once per source variant group). -/
def wmVariantFields (w : Nat) : List (List (Nat × Nat)) :=
  let word : Nat × Nat := (wordBytes w, wordBytes w)
  let tag : Nat × Nat := (4, 4)
  let u16f : Nat × Nat := (2, 2)
  let u32f : Nat × Nat := (4, 4)
  let u64f : Nat × Nat := (8, 8)
  let posf : Nat × Nat := (8, 8)
  let i16f : Nat × Nat := (2, 2)
  [ [tag],                          -- every payload-free variant
    [tag, word, word],              -- Create (word + pointer)
    [tag, word, i16f, i16f, u32f],  -- Move
    [tag, word, i16f, i16f, u32f],  -- Size (WindowResizing is usize-repr)
    [tag, u16f, u16f, word],        -- Activate (WindowActivation is u16-repr)
    [tag, word],                    -- SetFocus
    [tag, word, word],              -- EraseBackground, ShowWindow, ActivateApp,
                                    -- MouseActivate, GetMinMaxInfo,
                                    -- WindowPosChanging, WindowPosChanged,
                                    -- NcPaint, NcActivate, NcUahDrawCaption,
                                    -- NcUahDrawFrame, CaptureChanged,
                                    -- PowerBroadcast (PowerEvent is usize-repr),
                                    -- ImeSetContext, ImeNotify
    [tag, word, u16f, u16f, u32f],  -- SetCursor
    [tag, u32f, u32f, word],        -- StyleChanging, StyleChanged (GwlStyle is i32-repr)
    [tag, u64f, word],              -- GetIcon, SetIcon (IconSize is u64-repr)
    [tag, layoutStruct [word, word]], -- NcCalcSize (NcSizeParams: usize tag + pointer)
    [tag, word, posf],              -- NcHitTest, NcMouseMove, MouseMove,
                                    -- L/R/M button family, MouseHover
    [tag, word, u64f],              -- KeyDown, KeyUp, SysKeyDown, SysKeyUp (KeyInfo is u64)
    [tag, u16f, u16f, posf] ]       -- MouseWheel, MouseHWheel, XButton family

/-- Layouts of all `WindowMessage` variant structs. -/
def wmLayouts (w : Nat) : List (Nat × Nat) := (wmVariantFields w).map layoutStruct

/-- Alignment of the `repr(u32)` enum `WindowMessage`. -/
def wmAlign (w : Nat) : Nat := (wmLayouts w).foldl (fun a l => max a l.2) 1

/-- `size_of::<WindowMessage>()` at pointer width `w`. -/
def wmSize (w : Nat) : Nat :=
  alignTo ((wmLayouts w).foldl (fun a l => max a l.1) 0) (wmAlign w)

/-- The array length demanded by `_WM_SIZE_ASSERT` (source line 172): the
constant 24, with no `cfg(target_pointer_width)` gate. -/
def wmSizeAssertLen : Nat := 24

/-- The array length demanded by `_RAW_SIZE_ASSERT` (source lines 168-171):
24 under `cfg(target_pointer_width = "64")`, 12 under the 32-bit cfg. -/
def rawSizeAssertLen (w : Nat) : Nat := if w = 64 then 24 else 12

/-- C2: for every 32-bit identifier, `parse` selects the band by the
boundaries System [0, 0x3FF], User [0x400, 0x7FFF], App [0x8000, 0xBFFF],
String [0xC000, 0xFFFE], Reserved [0xFFFF, u32 max]; User rebases by
subtracting 0x400, App by 0x8000, Reserved by 0xFFFF, and String by 0x8000
(the App band's lower bound); the two parameter words pass through untouched
in every non-System band. -/
theorem parse_band_rebase_c2 (msg wp lp : Nat) (h : msg < 4294967296) :
    (msg ≤ 0x3FF → WindowEvent.parse msg wp lp = .Message (decodeSystem msg wp lp)) ∧
    (0x400 ≤ msg → msg ≤ 0x7FFF →
      WindowEvent.parse msg wp lp = .User ⟨msg - 0x400, wp, lp⟩) ∧
    (0x8000 ≤ msg → msg ≤ 0xBFFF →
      WindowEvent.parse msg wp lp = .App ⟨msg - 0x8000, wp, lp⟩) ∧
    (0xC000 ≤ msg → msg ≤ 0xFFFE →
      WindowEvent.parse msg wp lp = .String ⟨msg - 0x8000, wp, lp⟩) ∧
    (0xFFFF ≤ msg →
      WindowEvent.parse msg wp lp = .Reserved ⟨msg - 0xFFFF, wp, lp⟩) := by
  refine ⟨?_, ?_, ?_, ?_, ?_⟩ <;> intros <;>
    simp only [WindowEvent.parse] <;> split_ifs <;> first | rfl | omega

/-- Witness for C2 at concrete inputs in each rebased band. -/
theorem parse_band_rebase_c2_witness :
    WindowEvent.parse 0x0407 5 6 = .User ⟨7, 5, 6⟩ ∧
    WindowEvent.parse 0x8009 5 6 = .App ⟨9, 5, 6⟩ ∧
    WindowEvent.parse 0xC001 5 6 = .String ⟨0x4001, 5, 6⟩ ∧
    WindowEvent.parse 0xFFFF 5 6 = .Reserved ⟨0, 5, 6⟩ :=
  ⟨(parse_band_rebase_c2 0x0407 5 6 (by decide)).2.1 (by decide) (by decide),
   (parse_band_rebase_c2 0x8009 5 6 (by decide)).2.2.1 (by decide) (by decide),
   (parse_band_rebase_c2 0xC001 5 6 (by decide)).2.2.2.1 (by decide) (by decide),
   (parse_band_rebase_c2 0xFFFF 5 6 (by decide)).2.2.2.2 (by decide)⟩

/-- C3: the packed key-state decoder on 0 yields every sub-field zero or
false, and on 0xFFFFFFFF yields repeat_count = 0xFFFF, scan_code = 0xFF and
every boolean sub-field true (fields: bits 15..0, 23..16, 24, 29, 30, 31;
bits 28..25 are the ignored reserved range). -/
theorem keyinfo_field_extraction_c3 :
    (KeyInfo.mk 0).repeat_count = 0 ∧
    (KeyInfo.mk 0).scan_code = 0 ∧
    (KeyInfo.mk 0).extended = false ∧
    (KeyInfo.mk 0).context_code = false ∧
    (KeyInfo.mk 0).previous_state = false ∧
    (KeyInfo.mk 0).transition_state = false ∧
    (KeyInfo.mk 0xFFFFFFFF).repeat_count = 0xFFFF ∧
    (KeyInfo.mk 0xFFFFFFFF).scan_code = 0xFF ∧
    (KeyInfo.mk 0xFFFFFFFF).extended = true ∧
    (KeyInfo.mk 0xFFFFFFFF).context_code = true ∧
    (KeyInfo.mk 0xFFFFFFFF).previous_state = true ∧
    (KeyInfo.mk 0xFFFFFFFF).transition_state = true := by
  decide

/-- C1 (failing input): 0x3FF lies in the System band and equals no declared
`WindowMessage` discriminant, yet the source's System branch performs the
untagged-union read with no dispatch and no fallback: `WindowEvent` has no
`Unknown` variant and the read has no defined value there (modelled as
`Message none`); the original triple is not carried through. -/
theorem parse_unknown_system_id_c1 :
    ∀ wp lp, WindowEvent.parse 0x3FF wp lp = .Message none ∧
      decodeSystem 0x3FF wp lp = none :=
  fun _ _ => ⟨rfl, rfl⟩

/-- C4: parse(0x0201, 0x0001, pack(x = 10, y = 20)) yields
Message(LButtonDown) with modifiers 1 and position (10, 20);
`as_mouse_button` on it yields action Down, button Left, that position and
those modifiers; and every position-like payload decoded from `l_param`
reconstructs x as the sign-extended low 16 bits and y as the sign-extended
bits 16..31. -/
theorem parse_lbuttondown_c4 :
    WindowEvent.parse 0x0201 0x0001 (10 + 20 * 65536) =
      .Message (some (.LButtonDown 1 ⟨10, 20⟩)) ∧
    (WindowMessage.LButtonDown 1 ⟨10, 20⟩).as_mouse_button =
      some ⟨.Down, .Left, ⟨10, 20⟩, 1⟩ ∧
    ∀ wp lp,
      decodePos lp = ⟨sext16 lp, sext16 (lp / 65536)⟩ ∧
      decodeSystem 0x0200 wp lp = some (.MouseMove wp (decodePos lp)) ∧
      decodeSystem 0x0201 wp lp = some (.LButtonDown wp (decodePos lp)) ∧
      decodeSystem 0x0202 wp lp = some (.LButtonUp wp (decodePos lp)) ∧
      decodeSystem 0x0203 wp lp = some (.LButtonDblClk wp (decodePos lp)) ∧
      decodeSystem 0x0204 wp lp = some (.RButtonDown wp (decodePos lp)) ∧
      decodeSystem 0x0205 wp lp = some (.RButtonUp wp (decodePos lp)) ∧
      decodeSystem 0x0206 wp lp = some (.RButtonDblClk wp (decodePos lp)) ∧
      decodeSystem 0x0207 wp lp = some (.MButtonDown wp (decodePos lp)) ∧
      decodeSystem 0x0208 wp lp = some (.MButtonUp wp (decodePos lp)) ∧
      decodeSystem 0x0209 wp lp = some (.MButtonDblClk wp (decodePos lp)) ∧
      decodeSystem 0x02A1 wp lp = some (.MouseHover wp (decodePos lp)) ∧
      decodeSystem 0x0084 wp lp = some (.NcHitTest wp (decodePos lp)) ∧
      decodeSystem 0x00A0 wp lp = some (.NcMouseMove wp (decodePos lp)) :=
  ⟨rfl, rfl, fun _ _ =>
    ⟨rfl, rfl, rfl, rfl, rfl, rfl, rfl, rfl, rfl, rfl, rfl, rfl, rfl, rfl⟩⟩

/-- C5: parse(0x0100, 0x41, packed) yields the KeyDown tag; `as_key` on it
yields up = false, sys = false, code = 0x41, and an info field whose six
sub-fields each equal the packed key-state decoding of `packed`. -/
theorem parse_keydown_c5 (packed : Nat) (h : packed < 18446744073709551616) :
    WindowEvent.parse 0x0100 0x41 packed = .Message (some (.KeyDown 0x41 ⟨packed⟩)) ∧
    (WindowMessage.KeyDown 0x41 ⟨packed⟩).as_key = some ⟨false, false, 0x41, ⟨packed⟩⟩ ∧
    ((WindowMessage.KeyDown 0x41 ⟨packed⟩).as_key.map fun km => km.info.repeat_count) =
      some (KeyInfo.mk packed).repeat_count ∧
    ((WindowMessage.KeyDown 0x41 ⟨packed⟩).as_key.map fun km => km.info.scan_code) =
      some (KeyInfo.mk packed).scan_code ∧
    ((WindowMessage.KeyDown 0x41 ⟨packed⟩).as_key.map fun km => km.info.extended) =
      some (KeyInfo.mk packed).extended ∧
    ((WindowMessage.KeyDown 0x41 ⟨packed⟩).as_key.map fun km => km.info.context_code) =
      some (KeyInfo.mk packed).context_code ∧
    ((WindowMessage.KeyDown 0x41 ⟨packed⟩).as_key.map fun km => km.info.previous_state) =
      some (KeyInfo.mk packed).previous_state ∧
    ((WindowMessage.KeyDown 0x41 ⟨packed⟩).as_key.map fun km => km.info.transition_state) =
      some (KeyInfo.mk packed).transition_state :=
  ⟨rfl, rfl, rfl, rfl, rfl, rfl, rfl, rfl⟩

/-- Witness for C5 at packed = 0x20010003. -/
theorem parse_keydown_c5_witness :
    WindowEvent.parse 0x0100 0x41 0x20010003 =
      .Message (some (.KeyDown 0x41 ⟨0x20010003⟩)) :=
  (parse_keydown_c5 0x20010003 (by decide)).1

/-- C6: for every `WindowMessage` value, `as_key` returns Some exactly on
the four key-family tags, `as_mouse_button` returns Some exactly on the
twelve mouse-button-family tags, and the two never both return Some.
Membership is decided by the constructor alone (the payload arguments are
universally quantified by the case analysis), and both functions are pure,
hence deterministic. -/
theorem as_key_as_mouse_button_exclusive_c6 (m : WindowMessage) :
    m.as_key.isSome = m.isKeyFamily ∧
    m.as_mouse_button.isSome = m.isMouseButtonFamily ∧
    (m.as_key.isSome && m.as_mouse_button.isSome) = false := by
  cases m <;> exact ⟨rfl, rfl, rfl⟩

/-- C7 (failing input): a recognized tag whose enum-typed payload word holds
a value outside the closed set does not produce any typed error value — the
source reinterprets the words through the untagged union with no check, so
the read simply has no defined result (no `InvalidEnumValue` type exists
anywhere in the crate).  Shown for WM_SIZE with resize value 99, WM_GETICON
with icon-size value 9, WM_POWERBROADCAST with power-event value 3, and
WM_NCCALCSIZE with selector 7. -/
theorem invalid_enum_no_typed_error_c7 :
    ∀ lp, decodeSystem 0x0005 99 lp = none ∧
      decodeSystem 0x007F 9 lp = none ∧
      decodeSystem 0x0218 3 lp = none ∧
      decodeSystem 0x0083 7 lp = none :=
  fun _ => ⟨rfl, rfl, rfl, rfl⟩

/-- C8 (counterexample): at pointer width 32 the in-memory size of
`WindowMessage` is 24 bytes (the `GetIcon`/`SetIcon` variants carry a
u64-repr `IconSize`) while `RawEvent` is 12 bytes, so the claimed size
equality fails on 32-bit hosts. -/
theorem wm_size_not_raw_size_32_c8 : wmSize 32 ≠ rawEventSize 32 := by decide

/-- C8 (amended): on 64-bit hosts `WindowMessage` and `RawEvent` are both
24 bytes and the compile-time assertions pin both; but `_WM_SIZE_ASSERT` is
not width-gated — it demands 24 bytes at every width — so on 32-bit hosts,
where the raw triple is 12 bytes and `WindowMessage` is 24, the equality
neither holds nor is enforced. -/
theorem wm_size_assert_c8 :
    wmSize 64 = rawEventSize 64 ∧
    wmSize 64 = 24 ∧
    wmSizeAssertLen = wmSize 64 ∧
    rawSizeAssertLen 64 = rawEventSize 64 ∧
    rawSizeAssertLen 32 = rawEventSize 32 ∧
    wmSize 32 = 24 ∧
    rawEventSize 32 = 12 ∧
    wmSizeAssertLen ≠ rawSizeAssertLen 32 := by decide

/-- C9: any two 64-bit words that agree on their low 32 bits give equal
results for every `KeyInfo` accessor, and the keyboard summary `as_key`
produces for a key-family message is observably identical (same up, sys,
code, and all six key-state sub-fields); the upper 32 bits have no
influence. -/
theorem keyinfo_low32_noninterference_c9 (a b : Nat)
    (h : a % 4294967296 = b % 4294967296) :
    (KeyInfo.mk a).repeat_count = (KeyInfo.mk b).repeat_count ∧
    (KeyInfo.mk a).scan_code = (KeyInfo.mk b).scan_code ∧
    (KeyInfo.mk a).extended = (KeyInfo.mk b).extended ∧
    (KeyInfo.mk a).context_code = (KeyInfo.mk b).context_code ∧
    (KeyInfo.mk a).previous_state = (KeyInfo.mk b).previous_state ∧
    (KeyInfo.mk a).transition_state = (KeyInfo.mk b).transition_state ∧
    ∀ code,
      ((WindowMessage.KeyDown code ⟨a⟩).as_key.map fun km =>
        (km.up, km.sys, km.code, km.info.repeat_count, km.info.scan_code,
         km.info.extended, km.info.context_code, km.info.previous_state,
         km.info.transition_state)) =
      ((WindowMessage.KeyDown code ⟨b⟩).as_key.map fun km =>
        (km.up, km.sys, km.code, km.info.repeat_count, km.info.scan_code,
         km.info.extended, km.info.context_code, km.info.previous_state,
         km.info.transition_state)) := by
  have e1 : (KeyInfo.mk a).repeat_count = (KeyInfo.mk b).repeat_count := by
    simp only [KeyInfo.repeat_count]; omega
  have e2 : (KeyInfo.mk a).scan_code = (KeyInfo.mk b).scan_code := by
    simp only [KeyInfo.scan_code]; omega
  have e3 : (KeyInfo.mk a).extended = (KeyInfo.mk b).extended := by
    simp only [KeyInfo.extended, decide_eq_decide]; omega
  have e4 : (KeyInfo.mk a).context_code = (KeyInfo.mk b).context_code := by
    simp only [KeyInfo.context_code, decide_eq_decide]; omega
  have e5 : (KeyInfo.mk a).previous_state = (KeyInfo.mk b).previous_state := by
    simp only [KeyInfo.previous_state, decide_eq_decide]; omega
  have e6 : (KeyInfo.mk a).transition_state = (KeyInfo.mk b).transition_state := by
    simp only [KeyInfo.transition_state, decide_eq_decide]; omega
  refine ⟨e1, e2, e3, e4, e5, e6, fun code => ?_⟩
  simp only [WindowMessage.as_key, Option.map_some']
  rw [e1, e2, e3, e4, e5, e6]

/-- Witness for C9 at a = 2^32 + 5, b = 5. -/
theorem keyinfo_low32_noninterference_c9_witness :
    (KeyInfo.mk (4294967296 + 5)).repeat_count = (KeyInfo.mk 5).repeat_count :=
  (keyinfo_low32_noninterference_c9 (4294967296 + 5) 5 (by decide)).1

/-- C10: `as_mouse_button` on an X-button message yields button `X(index)`
with the message's 16-bit button index and carries the 16-bit modifiers
field through the u16-to-usize zero-extension (identity on the carrier, so
the result stays below 2^16), while the nine Left/Right/Middle tags carry
the full machine-word modifiers field verbatim. -/
theorem xbutton_modifiers_c10 (mo b : Nat) (pos : MousePos) (h : mo < 65536) :
    (WindowMessage.XButtonDown mo b pos).as_mouse_button =
      some ⟨.Down, .X b, pos, mo⟩ ∧
    (WindowMessage.XButtonUp mo b pos).as_mouse_button =
      some ⟨.Up, .X b, pos, mo⟩ ∧
    (WindowMessage.XButtonDblClk mo b pos).as_mouse_button =
      some ⟨.DoubleClick, .X b, pos, mo⟩ ∧
    (∀ r, (WindowMessage.XButtonDown mo b pos).as_mouse_button = some r →
      r.modifiers < 65536) ∧
    (∀ r, (WindowMessage.XButtonUp mo b pos).as_mouse_button = some r →
      r.modifiers < 65536) ∧
    (∀ r, (WindowMessage.XButtonDblClk mo b pos).as_mouse_button = some r →
      r.modifiers < 65536) ∧
    ∀ w : Nat,
      (WindowMessage.LButtonDown w pos).as_mouse_button = some ⟨.Down, .Left, pos, w⟩ ∧
      (WindowMessage.LButtonUp w pos).as_mouse_button = some ⟨.Up, .Left, pos, w⟩ ∧
      (WindowMessage.LButtonDblClk w pos).as_mouse_button = some ⟨.DoubleClick, .Left, pos, w⟩ ∧
      (WindowMessage.RButtonDown w pos).as_mouse_button = some ⟨.Down, .Right, pos, w⟩ ∧
      (WindowMessage.RButtonUp w pos).as_mouse_button = some ⟨.Up, .Right, pos, w⟩ ∧
      (WindowMessage.RButtonDblClk w pos).as_mouse_button = some ⟨.DoubleClick, .Right, pos, w⟩ ∧
      (WindowMessage.MButtonDown w pos).as_mouse_button = some ⟨.Down, .Middle, pos, w⟩ ∧
      (WindowMessage.MButtonUp w pos).as_mouse_button = some ⟨.Up, .Middle, pos, w⟩ ∧
      (WindowMessage.MButtonDblClk w pos).as_mouse_button = some ⟨.DoubleClick, .Middle, pos, w⟩ := by
  refine ⟨rfl, rfl, rfl, ?_, ?_, ?_, fun w =>
    ⟨rfl, rfl, rfl, rfl, rfl, rfl, rfl, rfl, rfl⟩⟩ <;>
    · intro r hr
      injection hr with h2
      subst h2
      exact h

/-- Witness for C10 at mo = 3, b = 1, pos = (0, 0). -/
theorem xbutton_modifiers_c10_witness :
    (WindowMessage.XButtonDown 3 1 ⟨0, 0⟩).as_mouse_button =
      some ⟨.Down, .X 1, ⟨0, 0⟩, 3⟩ :=
  (xbutton_modifiers_c10 3 1 ⟨0, 0⟩ (by decide)).1

end Winmsg
